import Mathlib

/-!
# Verification of the WhatsApp background-remover bot core

Shallow embedding of the repository's webhook server (`src/unnamed/part_000`,
with `src/index.js` as an earlier variant of the same handlers).  The
embedding models:

* the Mongoose `User` schema and `getUserData` (quota record store),
* `removeBackground` (fetch + transform stage with the PNG magic check),
* `uploadToCloudinary` (persist stage; the `public_id` storage key),
* `sendMessage` / `sendDocument` (error-swallowing send helpers),
* the `app.post('/webhook')` dispatcher and the `app.post('/verify-payment')`
  payment verifier,
* a small interleaving machine for the read–check–increment–save sequence
  the webhook performs on `imagesProcessed`.

External effects (Mongo, axios, Twilio, Cloudinary, HMAC) are passed in as
explicit oracle values so every definition is executable.
-/

deriving instance DecidableEq for Except

namespace BgRemover

/-- Subscription tier, mirroring the schema enum `['free', 'premium']`. -/
inductive Tier where
  | free
  | premium
deriving DecidableEq, Repr

/-- An instant, as JavaScript `Date` values are used by the source:
`monthIndex` counts whole calendar months (`year*12 + month`), `offset` is
the position within that month (`0` = first instant of the month, i.e.
day 1, 00:00:00.000).  `new Date(y, m, 1)` with `m` rolling over into the
next year is `⟨y*12 + m, 0⟩` in this model. -/
structure SimpleDate where
  monthIndex : Nat
  offset : Nat
deriving DecidableEq, Repr

/-- Chronological order on instants (lexicographic on month, then offset). -/
def SimpleDate.ble (a b : SimpleDate) : Bool :=
  Nat.blt a.monthIndex b.monthIndex ||
    (a.monthIndex == b.monthIndex && Nat.ble a.offset b.offset)

/-- `new Date(now.getFullYear(), now.getMonth() + 1, 1)`: the first instant
of the calendar month after `now`'s month (JS rolls month 12 into January
of the next year, which the flat month index captures). -/
def nextMonthStart (now : SimpleDate) : SimpleDate :=
  ⟨now.monthIndex + 1, 0⟩

/-- One document of the Mongoose `User` collection. -/
structure UserRecord where
  phoneNumber : String
  tier : Tier
  imagesProcessed : Nat
  subscriptionId : Option String
  resetDate : SimpleDate
  createdAt : SimpleDate
deriving DecidableEq, Repr

/-- The `User` collection: an association list keyed by `phoneNumber`
(the schema declares `phoneNumber` unique). -/
abbrev Store := List (String × UserRecord)

/-- `User.findOne({ phoneNumber })`. -/
def findUser (store : Store) (phone : String) : Option UserRecord :=
  (store.find? (fun e => e.1 == phone)).map (·.2)

/-- `user.save()`: replace the document with the same `phoneNumber`, or
insert it if absent. -/
def saveUser (store : Store) (u : UserRecord) : Store :=
  if (store.find? (fun e => e.1 == u.phoneNumber)).isSome then
    store.map (fun e => if e.1 == u.phoneNumber then (e.1, u) else e)
  else
    store ++ [(u.phoneNumber, u)]

/-- The fresh FREE-tier document `getUserData` builds for a first contact. -/
def newFreeUser (phone : String) (now : SimpleDate) : UserRecord :=
  { phoneNumber := phone
    tier := .free
    imagesProcessed := 0
    subscriptionId := none
    resetDate := nextMonthStart now
    createdAt := now }

/-- `getUserData(phoneNumber)`: find-or-create, with the month reset check
`if (now >= user.resetDate)` before the record is returned.  `dbOk = false`
models the catch branch (any store error makes it return `null`). -/
def getUserData (dbOk : Bool) (store : Store) (now : SimpleDate) (phone : String) :
    Option UserRecord × Store :=
  if !dbOk then (none, store)
  else
    match findUser store phone with
    | none =>
        let u := newFreeUser phone now
        (some u, saveUser store u)
    | some u =>
        if SimpleDate.ble u.resetDate now then
          let u' := { u with imagesProcessed := 0, resetDate := nextMonthStart now }
          (some u', saveUser store u')
        else
          (some u, store)

/-- `user.tier === 'premium' ? 100 : 3`, the per-tier monthly limit. -/
def limitFor : Tier → Nat
  | .premium => 100
  | .free => 3

/-! ## The transform stage: `removeBackground` (part_000 lines 95–161) -/

/-- A lowercase hex digit, as produced by `Buffer.toString('hex')`. -/
def hexDigit (n : Nat) : Char :=
  if n < 10 then Char.ofNat (48 + n) else Char.ofNat (87 + n)

/-- `buffer.toString('hex')`: two lowercase hex characters per byte. -/
def hexOfBytes (bs : List Nat) : String :=
  ((bs.map (fun b => [hexDigit (b % 256 / 16), hexDigit (b % 256 % 16)])).flatten).asString

/-- The expected 8-byte PNG signature, as the source's hex constant. -/
def pngSignatureHex : String := "89504e470d0a1a0a"

/-- The 8 leading bytes of a well-formed PNG stream. -/
def pngMagicBytes : List Nat := [137, 80, 78, 71, 13, 10, 26, 10]

/-- `pat` occurs contiguously in the list. -/
def listIsInfix (pat : List Char) : List Char → Bool
  | [] => pat.isEmpty
  | c :: rest => pat.isPrefixOf (c :: rest) || listIsInfix pat rest

/-- JS `String.prototype.includes`: `pat` occurs contiguously in `s`. -/
def strIncludes (s pat : String) : Bool :=
  listIsInfix pat.data s.data

/-- The truthiness-guarded content-type test
`resp.headers['content-type'] && resp.headers['content-type'].includes('png')`
(an absent header is `undefined`, hence falsy). -/
def ctIncludesPng : Option String → Bool
  | none => false
  | some s => strIncludes s "png"

/-- What the remove.bg HTTP call yields when it does not throw. -/
structure TransformResponse where
  contentType : Option String
  body : List Nat
deriving DecidableEq, Repr

/-- Failure classification of the fetch+transform stage (`removeBackground`
throw sites). -/
inductive RbError where
  | noKey
  | fetchFailed (msg : String)
  | tooLarge
  | transformFailed (msg : String)
  | notPng (contentType : Option String) (signature : String)
deriving DecidableEq, Repr

/-- `error.message` of each `removeBackground` throw site. -/
def rbErrorMessage (nowMs : Nat) : RbError → String
  | .noKey => "remove.bg key not set (REMOVEBG_API_KEY)"
  | .fetchFailed msg => msg
  | .tooLarge => "Image too large (max 25MB)"
  | .transformFailed msg => msg
  | .notPng ct sig =>
      "remove.bg did not return a PNG. content-type=" ++
        (match ct with | none => "unknown" | some s => if s == "" then "unknown" else s) ++
        ", signature=" ++ sig ++ ". Saved tmp: " ++
        ("/tmp/removebg_out_" ++ toString nowMs ++
          (match ct with
           | some s => if strIncludes s "png" then ".png"
                       else if strIncludes s "jpeg" then ".jpg" else ".bin"
           | none => ".bin"))

/-- External calls a pipeline run makes, in order (the run's trace). -/
inductive ExtCall where
  | fetch (url : Option String)
  | transform
  | upload (publicId : String)
deriving DecidableEq, Repr

/-- `removeBackground(imageUrl)` (part_000 lines 95–161): fetch the original
from the media endpoint, enforce the 25 MB cap, post to remove.bg, then
accept only when the content-type header includes `png` AND the first 8
bytes hex-encode to the PNG signature; otherwise throw.  `fetchRes` and
`rbRes` are the two network oracles; the second component is the trace of
external calls made. -/
def removeBackground (hasKey : Bool) (imageUrl : Option String)
    (fetchRes : Except String (List Nat)) (rbRes : Except String TransformResponse) :
    Except RbError (List Nat) × List ExtCall :=
  if !hasKey then (.error .noKey, [])
  else
    match fetchRes with
    | .error msg => (.error (.fetchFailed msg), [.fetch imageUrl])
    | .ok orig =>
        if orig.length > 25 * 1024 * 1024 then (.error .tooLarge, [.fetch imageUrl])
        else
          match rbRes with
          | .error msg => (.error (.transformFailed msg), [.fetch imageUrl, .transform])
          | .ok resp =>
              let signature := hexOfBytes (resp.body.take 8)
              if ctIncludesPng resp.contentType && signature == pngSignatureHex then
                (.ok resp.body, [.fetch imageUrl, .transform])
              else
                (.error (.notPng resp.contentType signature), [.fetch imageUrl, .transform])

/-! ## The persist stage: `uploadToCloudinary` (part_000 lines 163–207) -/

/-- `(phoneNumber || '').replace(/\D/g, '') || 'unknown'`: keep only the
decimal digits of the identity; an all-stripped identity becomes
`"unknown"`. -/
def safePhoneOf (phone : String) : String :=
  let ds := (phone.toList.filter Char.isDigit).asString
  if ds == "" then "unknown" else ds

/-- The Cloudinary `public_id` storage key:
`bg_${safePhone}_${Date.now()}` (`nowMs` is the run's creation time in
milliseconds). -/
def storageKey (phone : String) (nowMs : Nat) : String :=
  "bg_" ++ safePhoneOf phone ++ "_" ++ toString nowMs

/-- `uploadToCloudinary(imageBuffer, phoneNumber)`: throws when the storage
capability is unconfigured, otherwise streams the buffer to Cloudinary
under the per-run `public_id` key; `uploadRes` is the upload oracle
(error or `secure_url`). -/
def uploadToCloudinary (hasCloudinary : Bool) (uploadRes : Except String String)
    (_imageBuffer : List Nat) (phone : String) (nowMs : Nat) :
    Except String String × List ExtCall :=
  if !hasCloudinary then (.error "Cloudinary not set", [])
  else
    match uploadRes with
    | .error msg => (.error msg, [.upload (storageKey phone nowMs)])
    | .ok url => (.ok url, [.upload (storageKey phone nowMs)])

/-! ## Reply descriptors and the error-swallowing send helpers -/

/-- Whether a reply goes out as plain text (`sendMessage`) or with a media
attachment forced into document mode (`sendDocument`). -/
inductive ReplyKind where
  | text
  | document
deriving DecidableEq, Repr

/-- One reply descriptor handed to `client.messages.create`. -/
structure Reply where
  toNumber : String
  body : String
  mediaUrl : Option String
  kind : ReplyKind
deriving DecidableEq, Repr

/-- The descriptor `sendMessage(to, body, bot)` builds. -/
def mkText (num body : String) : Reply :=
  { toNumber := num, body := body, mediaUrl := none, kind := .text }

/-- The descriptor `sendDocument(to, fileUrl, caption, bot)` builds. -/
def mkDocument (num url caption : String) : Reply :=
  { toNumber := num, body := caption, mediaUrl := some url, kind := .document }

/-- One attempt through a send helper: the descriptor plus whether the
transport delivered it.  Both `sendMessage` and `sendDocument` wrap
`client.messages.create` in try/catch and swallow the error, so a failed
delivery is recorded here and nothing propagates to the caller. -/
abbrev SendEntry := Reply × Bool

/-! ## The webhook request and its field preprocessing -/

/-- The fields of `req.body` the `/webhook` handler reads (each may be
absent, i.e. `undefined`). -/
structure WebhookReq where
  From : Option String
  To : Option String
  Body : Option String
  NumMedia : Option String
  MediaUrl0 : Option String
deriving DecidableEq, Repr

/-- Delete the first occurrence of `pat` from a character list (identity
when `pat` does not occur). -/
def deleteFirstOcc (pat : List Char) : List Char → List Char
  | [] => []
  | c :: rest =>
      if pat.isPrefixOf (c :: rest) then (c :: rest).drop pat.length
      else c :: deleteFirstOcc pat rest

/-- JS `String.prototype.replace` with a string pattern: replace only the
FIRST occurrence of `pat` (here with the empty string). -/
def replaceFirst (s pat : String) : String :=
  ⟨deleteFirstOcc pat.data s.data⟩

/-- Decimal value of a digit-character run. -/
def digitsVal (cs : List Char) : Nat :=
  cs.foldl (fun a c => a * 10 + (c.toNat - 48)) 0

/-- Strip whitespace from both ends of a character list. -/
def listTrim (cs : List Char) : List Char :=
  ((cs.dropWhile Char.isWhitespace).reverse.dropWhile Char.isWhitespace).reverse

/-- `parseInt(s) || 0`: skip leading whitespace, read an optional sign and
a leading digit run; `NaN` (no digits) falls back to `0` through `||`. -/
def parseIntOr0 : Option String → Int
  | none => 0
  | some s =>
      let t := listTrim s.data
      let signRest : Int × List Char :=
        match t with
        | '-' :: rest => (-1, rest)
        | '+' :: rest => (1, rest)
        | rest => (1, rest)
      let ds := signRest.2.takeWhile Char.isDigit
      if ds.isEmpty then 0 else signRest.1 * (digitsVal ds : Int)

/-- JS truthiness of a possibly-undefined string (`undefined` and `''` are
falsy). -/
def truthy : Option String → Bool
  | none => false
  | some s => s != ""

/-! ## Configuration, oracles and the run result -/

/-- The environment-derived configuration the handlers consult. -/
structure Config where
  twilioNumber : Option String
  hasRemoveBgKey : Bool
  hasCloudinary : Bool
  hasRazorpayKey : Bool
  railwayDomain : Option String

/-- Outcomes of the external effects one webhook run can perform.
`sendOk k` tells whether the `k`-th send attempt of the run is delivered
by the transport (the helpers catch a failure either way). -/
structure Oracles where
  dbOk : Bool
  fetchRes : Except String (List Nat)
  rbRes : Except String TransformResponse
  uploadRes : Except String String
  sendOk : Nat → Bool

/-- Everything observable about one `/webhook` run: the HTTP response, the
final store, the send attempts (descriptor + delivered flag, in order),
and the trace of pipeline calls made. -/
structure RunResult where
  status : Nat
  httpBody : String
  store : Store
  entries : List SendEntry
  trace : List ExtCall
deriving DecidableEq, Repr

/-- Every `/webhook` exit acknowledges with `res.status(200).send('OK')`. -/
def mkRes (store : Store) (entries : List SendEntry) (trace : List ExtCall) : RunResult :=
  { status := 200, httpBody := "OK", store := store, entries := entries, trace := trace }

/-- `user.tier.toUpperCase()`. -/
def tierUpper : Tier → String
  | .free => "FREE"
  | .premium => "PREMIUM"

/-- The body of the reason-bearing failure reply of the media branch. -/
def procErrBody (msg : String) : String :=
  "❌ Error processing image:\n\n" ++ msg

/-! ## The `/webhook` dispatcher (part_000 lines 441–534) -/

/-- The media branch (`numMedia > 0`), entered with the record `u` already
loaded (and period-reset) by `getUserData`: configuration check, quota
check, then the try block running the pipeline, incrementing
`imagesProcessed` and saving only after a successful upload, with the
catch turning any stage error into the reason-bearing failure reply. -/
def handleMedia (cfg : Config) (o : Oracles) (nowMs : Nat) (store1 : Store)
    (u : UserRecord) (req : WebhookReq) (fromN : String) : RunResult :=
  if !cfg.hasRemoveBgKey then
    mkRes store1 [(mkText fromN "❌ Not configured", o.sendOk 0)] []
  else
    let limit := if u.tier == Tier.premium then 100 else 3
    if limit ≤ u.imagesProcessed then
      mkRes store1
        [(mkText fromN ("⚠️ Limit reached (" ++ toString limit ++ "). Reply UPGRADE"),
          o.sendOk 0)] []
    else
      let e0 : SendEntry := (mkText fromN "⏳ Processing...", o.sendOk 0)
      match removeBackground cfg.hasRemoveBgKey req.MediaUrl0 o.fetchRes o.rbRes with
      | (.error e, tr) =>
          mkRes store1 [e0, (mkText fromN (procErrBody (rbErrorMessage nowMs e)), o.sendOk 1)] tr
      | (.ok image, tr) =>
          match uploadToCloudinary cfg.hasCloudinary o.uploadRes image fromN nowMs with
          | (.error msg, tr2) =>
              mkRes store1 [e0, (mkText fromN (procErrBody msg), o.sendOk 1)] (tr ++ tr2)
          | (.ok url, tr2) =>
              let u' := { u with imagesProcessed := u.imagesProcessed + 1 }
              let store2 := saveUser store1 u'
              let remaining := limit - u'.imagesProcessed
              mkRes store2
                [e0, (mkDocument fromN url ("✅ Done! " ++ toString remaining ++ " left"),
                      o.sendOk 1)] (tr ++ tr2)

/-- The text-command branch of the dispatcher (case-insensitive, trimmed
commands; anything unrecognized — including an absent body — gets the
generic nudge). -/
def handleText (cfg : Config) (o : Oracles) (now : SimpleDate) (store1 : Store)
    (u : UserRecord) (fromN : String) (msgOpt : Option String) : RunResult :=
  if msgOpt == some "start" || msgOpt == some "hello" then
    mkRes store1
      [(mkText fromN
          ("🎨 *Background Remover*\n\n📊 Status: " ++ tierUpper u.tier ++
           "\nUsed: " ++ toString u.imagesProcessed ++ "/" ++
           toString (if u.tier == Tier.premium then (100 : Nat) else 3) ++
           "\n\nCommands: START, STATUS, HELP, UPGRADE"),
        o.sendOk 0)] []
  else if msgOpt == some "status" then
    let limit := if u.tier == Tier.premium then (100 : Nat) else 3
    mkRes store1
      [(mkText fromN
          ("📊 Plan: " ++ tierUpper u.tier ++ "\nUsed: " ++
           toString u.imagesProcessed ++ "/" ++ toString limit),
        o.sendOk 0)] []
  else if msgOpt == some "help" then
    mkRes store1
      [(mkText fromN
          "📖 *Commands*\nSTART - Start\nSTATUS - Check usage\nUPGRADE - Go Premium\nSend image to remove background",
        o.sendOk 0)] []
  else if msgOpt == some "upgrade" then
    mkRes store1
      [(mkText fromN "⭐ Premium: ₹999/month\n100 images/month\n\nReply CONFIRM to pay",
        o.sendOk 0)] []
  else if msgOpt == some "confirm" then
    if !cfg.hasRazorpayKey then
      mkRes store1 [(mkText fromN "❌ Payments not configured", o.sendOk 0)] []
    else
      let domain := match cfg.railwayDomain with
        | some d => if d != "" then d else "whatsapp-bg-remover-production.up.railway.app"
        | none => "whatsapp-bg-remover-production.up.railway.app"
      mkRes store1
        [(mkText fromN
            ("💳 Pay here:\n" ++ domain ++ "/pay/" ++ replaceFirst fromN "+" ++
             "\n\nAfter payment, reply VERIFY"),
          o.sendOk 0)] []
  else if msgOpt == some "verify" then
    let refreshed := getUserData o.dbOk store1 now fromN
    match refreshed.1 with
    | some u2 =>
        if u2.tier == Tier.premium then
          mkRes refreshed.2
            [(mkText fromN
                "✅ *Payment Verified!*\n\nYou\x27re now Premium! 🎉\n100 images/month available\n\nStart sending images!",
              o.sendOk 0)] []
        else
          mkRes refreshed.2
            [(mkText fromN
                "⏳ Payment still processing. Try again in a moment.\n\nOr send UPGRADE to try again.",
              o.sendOk 0)] []
    | none =>
        mkRes refreshed.2
          [(mkText fromN
              "⏳ Payment still processing. Try again in a moment.\n\nOr send UPGRADE to try again.",
            o.sendOk 0)] []
  else
    mkRes store1
      [(mkText fromN "👋 Send an image to remove background\n\nType HELP for commands",
        o.sendOk 0)] []

/-- One run of `app.post('/webhook')`: field preprocessing, the `!from`
early acknowledgement, record load (with its reset side effect), then the
media or text branch.  Always resolves to an HTTP 200 `'OK'`
acknowledgement. -/
def webhookRun (cfg : Config) (o : Oracles) (now : SimpleDate) (nowMs : Nat)
    (store : Store) (req : WebhookReq) : RunResult :=
  let fromOpt := req.From.map (fun s => replaceFirst s "whatsapp:")
  let msgOpt := req.Body.map (fun s => s.toLower.trim)
  let numMedia := parseIntOr0 req.NumMedia
  match fromOpt with
  | none => mkRes store [] []
  | some fromN =>
      if fromN == "" then mkRes store [] []
      else
        let loaded := getUserData o.dbOk store now fromN
        match loaded.1 with
        | none => mkRes loaded.2 [(mkText fromN "❌ Error", o.sendOk 0)] []
        | some u =>
            if 0 < numMedia then
              handleMedia cfg o nowMs loaded.2 u req fromN
            else
              handleText cfg o now loaded.2 u fromN msgOpt

/-! ## The payment verifier: `app.post('/verify-payment')`
(part_000 lines 272–329) -/

/-- The JSON body of a payment assertion. -/
structure VerifyReq where
  orderId : String
  paymentId : String
  signature : String
  phoneNumber : String
deriving DecidableEq, Repr

/-- Observable outcome of one `/verify-payment` run. -/
structure VerifyResult where
  status : Nat
  success : Bool
  errMsg : Option String
  store : Store
  notification : Option Reply
deriving DecidableEq, Repr

/-- One run of `app.post('/verify-payment')`.  `hmacHex` abstracts
`crypto.createHmac('sha256', RAZORPAY_KEY_SECRET).update(·).digest('hex')`:
the lowercase-hex HMAC-SHA256 under the pre-shared secret.  The handler
normalizes the identity, recomputes the signature over
`orderId + '|' + paymentId`, rejects on mismatch BEFORE any store access,
and otherwise upgrades the found record to premium. -/
def verifyPayment (hmacHex : String → String) (twilioNumber : Option String)
    (now : SimpleDate) (store : Store) (req : VerifyReq) : VerifyResult :=
  let phone := if ("+".data).isPrefixOf req.phoneNumber.data then req.phoneNumber
               else "+" ++ req.phoneNumber
  let generated := hmacHex (req.orderId ++ "|" ++ req.paymentId)
  if generated != req.signature then
    { status := 400, success := false, errMsg := some "Invalid signature"
      store := store, notification := none }
  else
    match findUser store phone with
    | none =>
        { status := 400, success := false, errMsg := some ("User not found: " ++ phone)
          store := store, notification := none }
    | some u =>
        let u' := { u with
          tier := Tier.premium
          imagesProcessed := 0
          subscriptionId := some req.paymentId
          resetDate := nextMonthStart now }
        let _bot := match twilioNumber with | some b => b | none => "+14155238886"
        { status := 200, success := true, errMsg := none
          store := saveUser store u'
          notification := some (mkText u'.phoneNumber
            "✅ *Payment Successful!*\n\nYou are now Premium! 🎉\n\n100 images/month available\n\nStart removing backgrounds!") }

/-! ## Interleaving model of the quota check-and-increment

The webhook performs its quota consumption as three store accesses spread
over the handler (part_000 lines 451, 465–466, 484–485): a read of the
document (`getUserData` / `findOne`), an in-memory check
`user.imagesProcessed >= limit` against that snapshot, and — much later,
after the pipeline — a write `user.imagesProcessed++; await user.save()`
that `$set`s the field to `snapshot + 1`.  `ConsTask` abstracts one
in-flight media event to its two atomic store accesses; a schedule
interleaves any number of such tasks against the shared counter. -/

/-- One in-flight consumption attempt: `snapshot` is the counter value it
read (`none` until its read step runs), `done` whether its second step has
run. -/
structure ConsTask where
  snapshot : Option Nat
  done : Bool
deriving DecidableEq, Repr

/-- A task that has not run any step yet. -/
def pendingTask : ConsTask := { snapshot := none, done := false }

/-- Shared persisted counter plus the per-task progress (tasks indexed by
arbitrary ids). -/
@[ext]
structure ConsState where
  counter : Nat
  tasks : Nat → ConsTask

/-- Run the next pending step of task `i`: the first step reads the
counter into the task's snapshot (`findOne` / `getUserData`), the second
step is the handler's continuation — if the snapshot passed the check
`snapshot < limit` it writes `snapshot + 1` back (the `$set` performed by
`user.save()` after `user.imagesProcessed++`), otherwise the handler
stopped at the limit-reached reply and writes nothing.  A finished task is
a no-op. -/
def stepTask (limit : Nat) (s : ConsState) (i : Nat) : ConsState :=
  match s.tasks i with
  | { snapshot := none, done := d } =>
      { counter := s.counter
        tasks := fun j => if j = i then { snapshot := some s.counter, done := d }
                          else s.tasks j }
  | { snapshot := some snap, done := false } =>
      { counter := if snap < limit then snap + 1 else s.counter
        tasks := fun j => if j = i then { snapshot := some snap, done := true }
                          else s.tasks j }
  | { snapshot := some _, done := true } => s

/-- Run a whole schedule (a list of task ids, each occurrence running that
task's next step). -/
def runSched (limit : Nat) (s : ConsState) (sched : List Nat) : ConsState :=
  sched.foldl (stepTask limit) s

/-- No attempt started, counter at `c0`. -/
def initConsState (c0 : Nat) : ConsState :=
  { counter := c0, tasks := fun _ => pendingTask }

/-- Whether a finished task passed the quota check (was granted a pipeline
run). -/
def taskGranted (limit : Nat) (t : ConsTask) : Bool :=
  t.done && (match t.snapshot with | some snap => decide (snap < limit) | none => false)

/-- How many of the tasks `0 … n-1` were granted a pipeline run. -/
def grantsAmong (limit n : Nat) (s : ConsState) : Nat :=
  ((List.range n).filter (fun i => taskGranted limit (s.tasks i))).length

/-- The fully sequential schedule: task 0 runs both steps, then task 1,
and so on — no interleaving. -/
def seqSched (n : Nat) : List Nat :=
  ((List.range n).map (fun i => [i, i])).flatten

theorem runSched_append (limit : Nat) (s : ConsState) (a b : List Nat) :
    runSched limit s (a ++ b) = runSched limit (runSched limit s a) b := by
  unfold runSched
  rw [List.foldl_append]

/-- Full description of the machine after `k` sequential attempts from a
zero counter: tasks `0 … k-1` ran to completion, each having read
`min i limit`, and the counter is `min k limit`. -/
theorem seq_state (limit k : Nat) :
    runSched limit (initConsState 0) (seqSched k) =
      { counter := min k limit
        tasks := fun j => if j < k then { snapshot := some (min j limit), done := true }
                          else pendingTask } := by
  induction k with
  | zero =>
      show initConsState 0 = _
      unfold initConsState
      refine ConsState.ext ?_ ?_
      · simp
      · funext j
        simp
  | succ k ih =>
      have hsched : seqSched (k + 1) = seqSched k ++ [k, k] := by
        simp [seqSched, List.range_succ]
      rw [hsched, runSched_append, ih]
      show stepTask limit (stepTask limit _ k) k = _
      have hk : ¬ k < k := Nat.lt_irrefl k
      unfold stepTask
      simp only [hk, if_false, if_pos rfl, pendingTask]
      refine ConsState.ext ?_ ?_
      · show (if min k limit < limit then min k limit + 1 else min k limit) =
          min (k + 1) limit
        by_cases hkl : min k limit < limit
        · rw [if_pos hkl]
          omega
        · rw [if_neg hkl]
          omega
      · funext j
        by_cases hjk : j = k
        · subst hjk
          simp [Nat.lt_succ_self]
        · have h1 : (j < k + 1) ↔ (j < k) := by omega
          simp [hjk, h1]

/-- Stepping never pushes the persisted counter past the limit once it is
at or below it: a write stores `snapshot + 1` with `snapshot < limit`. -/
theorem counter_bound (limit : Nat) (sched : List Nat) :
    ∀ s : ConsState, s.counter ≤ limit →
      (runSched limit s sched).counter ≤ limit := by
  induction sched with
  | nil => intro s h; exact h
  | cons i rest ih =>
      intro s h
      apply ih
      unfold stepTask
      split
      · exact h
      · next snap _ =>
          by_cases hs : snap < limit
          · simp [hs]
            omega
          · simp [hs]
            exact h
      · exact h

/-- **C2 amended**: the webhook's quota consumption — modelled as its
read–check–write accesses to the persisted counter — satisfies the two
safe parts of the claim: after `N` strictly sequential attempts the
counter is exactly `min N (limitFor tier)`, and under EVERY interleaving
the persisted counter never exceeds the limit (each write stores
`snapshot + 1` for a snapshot that passed the check).  What fails — see
the counterexample — is atomicity: the check-and-increment is a stale
read followed by a blind write, so an interleaving can GRANT more than
`limitFor tier` pipeline runs (while undercounting them). -/
theorem C2_amended_sequential_min_and_bound (t : Tier) (n : Nat) (sched : List Nat) :
    (runSched (limitFor t) (initConsState 0) (seqSched n)).counter = min n (limitFor t) ∧
    (runSched (limitFor t) (initConsState 0) sched).counter ≤ limitFor t := by
  constructor
  · rw [seq_state]
  · exact counter_bound (limitFor t) sched (initConsState 0) (by simp [initConsState])

/-- **C2 counterexample**: the check-and-increment is not atomic.  Four
concurrent attempts for one FREE identity (limit 3) interleave as
read,read,read,read,write,write,write,write: all four pass the check on
the same stale snapshot `0`, so four pipeline runs are granted — more
than the limit — while the persisted counter ends at `1`, not `4` (lost
updates).  An atomic conditional increment would have granted at most 3. -/
theorem C2_counterexample :
    grantsAmong (limitFor Tier.free) 4
        (runSched (limitFor Tier.free) (initConsState 0) [0, 1, 2, 3, 0, 1, 2, 3]) = 4 ∧
    ¬ (grantsAmong (limitFor Tier.free) 4
        (runSched (limitFor Tier.free) (initConsState 0) [0, 1, 2, 3, 0, 1, 2, 3]) ≤
          limitFor Tier.free) ∧
    (runSched (limitFor Tier.free) (initConsState 0) [0, 1, 2, 3, 0, 1, 2, 3]).counter = 1 := by
  refine ⟨by decide, by decide, by decide⟩

/-! ## Decimal representation facts

`Date.now()` is interpolated into the Cloudinary `public_id` through its
decimal string; the storage-key uniqueness claim needs that this decimal
string determines the timestamp. -/

/-- Structural decimal digits of `n`, most significant first (the list
`Nat.toDigits 10` computes through its fuel). -/
def decDigits (n : Nat) : List Char :=
  if _h : n < 10 then [Nat.digitChar n]
  else decDigits (n / 10) ++ [Nat.digitChar (n % 10)]
termination_by n
decreasing_by
  exact Nat.div_lt_self (by omega) (by omega)

theorem toDigitsCore_eq_decDigits :
    ∀ (fuel n : Nat) (ds : List Char), n < fuel →
      Nat.toDigitsCore 10 fuel n ds = decDigits n ++ ds := by
  intro fuel
  induction fuel with
  | zero => intro n ds h; omega
  | succ fuel ih =>
      intro n ds h
      rw [Nat.toDigitsCore]
      by_cases h0 : n / 10 = 0
      · have hn : n < 10 := by omega
        rw [decDigits]
        simp [h0, hn, Nat.mod_eq_of_lt hn]
      · have hn : ¬ n < 10 := by omega
        have hpos : 0 < n := by omega
        have hlt : n / 10 < fuel := by
          have hd := Nat.div_lt_self hpos (by norm_num : 1 < 10)
          omega
        simp only [h0, if_false]
        rw [ih (n / 10) (Nat.digitChar (n % 10) :: ds) hlt]
        conv_rhs => rw [decDigits]
        simp [hn, List.append_assoc]

theorem digitChar_toNat {m : Nat} (h : m < 10) : (Nat.digitChar m).toNat = 48 + m := by
  interval_cases m <;> rfl

theorem digitsVal_append (cs : List Char) (c : Char) :
    digitsVal (cs ++ [c]) = digitsVal cs * 10 + (c.toNat - 48) := by
  simp [digitsVal, List.foldl_append]

theorem digitsVal_decDigits (n : Nat) : digitsVal (decDigits n) = n := by
  induction n using Nat.strong_induction_on with
  | _ n ih =>
      rw [decDigits]
      by_cases h : n < 10
      · simp [h, digitsVal, digitChar_toNat h]
      · have hdiv : n / 10 < n := Nat.div_lt_self (by omega) (by omega)
        have hmod : n % 10 < 10 := Nat.mod_lt _ (by omega)
        simp only [h, dif_neg, not_false_iff]
        rw [digitsVal_append, ih (n / 10) hdiv, digitChar_toNat hmod]
        omega

/-- Two naturals with the same decimal representation are equal. -/
theorem natRepr_injective {m n : Nat} (h : Nat.repr m = Nat.repr n) : m = n := by
  have hm : Nat.toDigits 10 m = decDigits m := by
    simpa [Nat.toDigits] using toDigitsCore_eq_decDigits (m + 1) m [] (Nat.lt_succ_self m)
  have hn : Nat.toDigits 10 n = decDigits n := by
    simpa [Nat.toDigits] using toDigitsCore_eq_decDigits (n + 1) n [] (Nat.lt_succ_self n)
  have hdata : decDigits m = decDigits n := by
    have h' := congrArg String.data h
    simpa [Nat.repr, List.asString, hm, hn] using h'
  have := congrArg digitsVal hdata
  simpa [digitsVal_decDigits] using this

/-! ## Theorems for the claims -/

/-- **C9**: the persist stage's storage key `bg_${safePhone}_${Date.now()}`
is derived from the identity and the run's creation time; for one identity,
runs created at different instants get different keys, so repeated runs for
the same identity never produce colliding keys. -/
theorem C9_storage_key_unique_per_time (p : String) {t1 t2 : Nat}
    (hne : t1 ≠ t2) : storageKey p t1 ≠ storageKey p t2 := by
  intro h
  apply hne
  apply natRepr_injective
  have h' := congrArg String.data h
  simp only [storageKey, String.data_append, List.append_assoc,
    List.append_cancel_left_eq] at h'
  exact congrArg String.mk h'

/-- Witness for C9 at a concrete identity and two concrete run times. -/
theorem C9_witness :
    (1696200000000 : Nat) ≠ 1696200000001 ∧
      storageKey "+15551234567" 1696200000000 ≠ storageKey "+15551234567" 1696200000001 :=
  ⟨by decide, C9_storage_key_unique_per_time "+15551234567" (by decide)⟩

/-- A transform response carrying a byte-perfect PNG but a non-PNG
content-type header. -/
def pngBodyOctetStream : TransformResponse :=
  { contentType := some "application/octet-stream", body := pngMagicBytes ++ [0, 0, 0, 13] }

/-- **C3 counterexample**: the transform stage is NOT independent of the
content-type header.  Here the response's leading 8 bytes are exactly the
PNG signature, yet because the header does not contain `png` the stage
throws the `did not return a PNG` error instead of accepting. -/
theorem C3_counterexample :
    hexOfBytes (pngBodyOctetStream.body.take 8) = pngSignatureHex ∧
      (removeBackground true (some "url") (.ok [1, 2, 3]) (.ok pngBodyOctetStream)).1 =
        .error (.notPng (some "application/octet-stream") pngSignatureHex) := by
  constructor
  · rfl
  · decide

/-- In-cap, non-throwing characterization of the transform stage's accept
branch. -/
theorem removeBackground_accept_char (url : Option String) (orig : List Nat)
    (resp : TransformResponse) (hns : ¬ orig.length > 25 * 1024 * 1024) :
    (removeBackground true url (.ok orig) (.ok resp)).1 =
      if ctIncludesPng resp.contentType && (hexOfBytes (resp.body.take 8) == pngSignatureHex)
      then .ok resp.body
      else .error (.notPng resp.contentType (hexOfBytes (resp.body.take 8))) := by
  unfold removeBackground
  simp only [Bool.not_true, Bool.false_eq_true, if_false, if_neg hns]
  split <;> rfl

/-- **C3 amended**: with the transform key configured, a fetched original
within the size cap and a non-throwing service response, the stage accepts
the response if and only if BOTH the declared content-type contains `png`
AND the leading 8 bytes hex-encode to the fixed PNG signature; and —
the half of the original claim that does hold — whenever the leading bytes
do not match the signature the stage always fails with the
unexpected-output-format error, whatever the content-type header says. -/
theorem C3_amended_png_acceptance (url : Option String) (orig : List Nat)
    (resp : TransformResponse) (hsize : orig.length ≤ 25 * 1024 * 1024) :
    ((removeBackground true url (.ok orig) (.ok resp)).1 = .ok resp.body ↔
      (ctIncludesPng resp.contentType = true ∧
        hexOfBytes (resp.body.take 8) = pngSignatureHex)) ∧
    (hexOfBytes (resp.body.take 8) ≠ pngSignatureHex →
      (removeBackground true url (.ok orig) (.ok resp)).1 =
        .error (.notPng resp.contentType (hexOfBytes (resp.body.take 8)))) := by
  have hns : ¬ orig.length > 25 * 1024 * 1024 := by omega
  rw [removeBackground_accept_char url orig resp hns]
  constructor
  · by_cases hc : (ctIncludesPng resp.contentType &&
        (hexOfBytes (resp.body.take 8) == pngSignatureHex)) = true
    · rw [if_pos hc]
      simp only [Bool.and_eq_true, beq_iff_eq] at hc
      simp [hc]
    · rw [if_neg hc]
      simp only [Bool.and_eq_true, beq_iff_eq, not_and] at hc
      constructor
      · intro habs
        exact absurd habs (by simp)
      · intro ⟨hct, hsig⟩
        exact absurd hsig (hc hct)
  · intro hne
    have hc : ¬ (ctIncludesPng resp.contentType &&
        (hexOfBytes (resp.body.take 8) == pngSignatureHex)) = true := by
      simp only [Bool.and_eq_true, beq_iff_eq, not_and]
      intro _
      exact hne
    rw [if_neg hc]

/-- Witness for C3 amended at a concrete in-cap original and a concrete
response (a correct PNG with a matching content-type header). -/
theorem C3_witness :
    ((removeBackground true none (.ok [7])
        (.ok { contentType := some "image/png", body := pngMagicBytes })).1 =
          .ok pngMagicBytes ↔
      (ctIncludesPng (some "image/png") = true ∧
        hexOfBytes (pngMagicBytes.take 8) = pngSignatureHex)) ∧
    (hexOfBytes (pngMagicBytes.take 8) ≠ pngSignatureHex →
      (removeBackground true none (.ok [7])
          (.ok { contentType := some "image/png", body := pngMagicBytes })).1 =
        .error (.notPng (some "image/png") (hexOfBytes (pngMagicBytes.take 8)))) :=
  C3_amended_png_acceptance none [7]
    { contentType := some "image/png", body := pngMagicBytes } (by decide)

/-- The handler's inline limit expression agrees with `limitFor`. -/
theorem tierLimit_eq (t : Tier) :
    (if t == Tier.premium then (100 : Nat) else 3) = limitFor t := by
  cases t <;> rfl

/-- `getUserData` on a first contact: create and persist a fresh record. -/
theorem getUserData_none (store : Store) (now : SimpleDate) (p : String)
    (hf : findUser store p = none) :
    getUserData true store now p =
      (some (newFreeUser p now), saveUser store (newFreeUser p now)) := by
  unfold getUserData
  simp only [Bool.not_true, Bool.false_eq_true, if_false]
  rw [hf]

/-- `getUserData` on an existing record: reset-and-save when the period
lapsed, otherwise hand it back untouched. -/
theorem getUserData_found (store : Store) (now : SimpleDate) (p : String)
    (u0 : UserRecord) (hf : findUser store p = some u0) :
    getUserData true store now p =
      if SimpleDate.ble u0.resetDate now then
        (some { u0 with imagesProcessed := 0, resetDate := nextMonthStart now },
         saveUser store { u0 with imagesProcessed := 0, resetDate := nextMonthStart now })
      else (some u0, store) := by
  unfold getUserData
  simp only [Bool.not_true, Bool.false_eq_true, if_false]
  rw [hf]

/-- A `getUserData` read that returns a record with a strictly positive
counter cannot have created or reset it, so it left the store untouched. -/
theorem getUserData_store_unchanged (store : Store) (now : SimpleDate)
    (p : String) (u : UserRecord) (h1 : (getUserData true store now p).1 = some u)
    (h2 : 0 < u.imagesProcessed) :
    (getUserData true store now p).2 = store := by
  cases hf : findUser store p with
  | none =>
      rw [getUserData_none store now p hf] at h1
      simp only [Option.some.injEq] at h1
      rw [← h1] at h2
      simp [newFreeUser] at h2
  | some u0 =>
      by_cases hb : SimpleDate.ble u0.resetDate now = true
      · rw [getUserData_found store now p u0 hf, if_pos hb] at h1
        simp only [Option.some.injEq] at h1
        rw [← h1] at h2
        simp at h2
      · rw [getUserData_found store now p u0 hf, if_neg hb]

/-- Dispatch of a media event: with a well-formed sender, a media count
parsed positive and a loaded record, the webhook run is the media branch
applied to the post-load store. -/
theorem webhookRun_media (cfg : Config) (o : Oracles) (now : SimpleDate)
    (nowMs : Nat) (store : Store) (req : WebhookReq) (rawFrom p : String)
    (u : UserRecord)
    (hdb : o.dbOk = true)
    (hFrom : req.From = some rawFrom)
    (hRep : replaceFirst rawFrom "whatsapp:" = p)
    (hp : (p == "") = false)
    (hMedia : 0 < parseIntOr0 req.NumMedia)
    (hload : (getUserData true store now p).1 = some u) :
    webhookRun cfg o now nowMs store req =
      handleMedia cfg o nowMs (getUserData true store now p).2 u req p := by
  unfold webhookRun
  rw [hFrom, hdb]
  simp only [Option.map_some', hRep, hp, Bool.false_eq_true, if_false, hload,
    if_pos hMedia]

/-- **C5**: any payment assertion whose signature differs from the
lowercase-hex HMAC-SHA256 of `orderRef + "|" + paymentRef` under the
pre-shared secret (abstracted as `hmacHex`) is rejected with the
invalid-signature error, with HTTP 400, and with NO usage-record mutation:
the store is returned untouched and no upgrade (nor notification) happens,
so a rejected assertion never reaches the upgrade step. -/
theorem C5_invalid_signature_rejected (hmacHex : String → String)
    (tw : Option String) (now : SimpleDate) (store : Store) (req : VerifyReq)
    (h : hmacHex (req.orderId ++ "|" ++ req.paymentId) ≠ req.signature) :
    (verifyPayment hmacHex tw now store req).status = 400 ∧
    (verifyPayment hmacHex tw now store req).success = false ∧
    (verifyPayment hmacHex tw now store req).errMsg = some "Invalid signature" ∧
    (verifyPayment hmacHex tw now store req).store = store ∧
    (verifyPayment hmacHex tw now store req).notification = none := by
  have h' : (hmacHex (req.orderId ++ "|" ++ req.paymentId) != req.signature) = true := by
    simpa using h
  unfold verifyPayment
  simp [h']

/-- Witness for C5 at a concrete assertion and a concrete (constant) HMAC
whose value differs from the asserted signature. -/
theorem C5_witness :
    (verifyPayment (fun _ => "aabb") none ⟨24300, 0⟩
        [("+15550001111", newFreeUser "+15550001111" ⟨24300, 0⟩)]
        { orderId := "order_1", paymentId := "pay_1", signature := "ffff",
          phoneNumber := "15550001111" }).status = 400 ∧
    (verifyPayment (fun _ => "aabb") none ⟨24300, 0⟩
        [("+15550001111", newFreeUser "+15550001111" ⟨24300, 0⟩)]
        { orderId := "order_1", paymentId := "pay_1", signature := "ffff",
          phoneNumber := "15550001111" }).success = false ∧
    (verifyPayment (fun _ => "aabb") none ⟨24300, 0⟩
        [("+15550001111", newFreeUser "+15550001111" ⟨24300, 0⟩)]
        { orderId := "order_1", paymentId := "pay_1", signature := "ffff",
          phoneNumber := "15550001111" }).errMsg = some "Invalid signature" ∧
    (verifyPayment (fun _ => "aabb") none ⟨24300, 0⟩
        [("+15550001111", newFreeUser "+15550001111" ⟨24300, 0⟩)]
        { orderId := "order_1", paymentId := "pay_1", signature := "ffff",
          phoneNumber := "15550001111" }).store =
      [("+15550001111", newFreeUser "+15550001111" ⟨24300, 0⟩)] ∧
    (verifyPayment (fun _ => "aabb") none ⟨24300, 0⟩
        [("+15550001111", newFreeUser "+15550001111" ⟨24300, 0⟩)]
        { orderId := "order_1", paymentId := "pay_1", signature := "ffff",
          phoneNumber := "15550001111" }).notification = none :=
  C5_invalid_signature_rejected (fun _ => "aabb") none ⟨24300, 0⟩
    [("+15550001111", newFreeUser "+15550001111" ⟨24300, 0⟩)]
    { orderId := "order_1", paymentId := "pay_1", signature := "ffff",
      phoneNumber := "15550001111" } (by decide)

/-- **C7**: a read through `getUserData` that observes
`now >= user.resetDate` returns — and persists via `user.save()` — the
record with `imagesProcessed` reset to `0` and `resetDate` advanced to the
first instant of the following calendar month (`⟨now.monthIndex + 1, 0⟩`
in the month-index model of `new Date(y, m + 1, 1)`), a strictly future
instant; the quota decision in the dispatcher runs on exactly this
returned record. -/
theorem C7_period_reset_on_read (store : Store) (now : SimpleDate)
    (phone : String) (u : UserRecord) (hfind : findUser store phone = some u)
    (hdue : SimpleDate.ble u.resetDate now = true) :
    getUserData true store now phone =
      (some { u with imagesProcessed := 0,
                     resetDate := { monthIndex := now.monthIndex + 1, offset := 0 } },
       saveUser store
         { u with imagesProcessed := 0,
                  resetDate := { monthIndex := now.monthIndex + 1, offset := 0 } }) ∧
    SimpleDate.ble { monthIndex := now.monthIndex + 1, offset := 0 } now = false := by
  constructor
  · unfold getUserData
    simp [hfind, hdue, nextMonthStart]
  · apply Bool.eq_false_iff.mpr
    intro hcontra
    unfold SimpleDate.ble at hcontra
    simp only [Bool.or_eq_true, Bool.and_eq_true, Nat.blt_eq, Nat.ble_eq,
      beq_iff_eq] at hcontra
    omega

/-- A concrete record whose period reset is two months overdue. -/
def staleRecordW : UserRecord :=
  { phoneNumber := "+91998"
    tier := Tier.free
    imagesProcessed := 2
    subscriptionId := none
    resetDate := ⟨24298, 0⟩
    createdAt := ⟨24297, 5⟩ }

/-- Witness for C7: a concrete stale record (reset due two months ago) is
reset and persisted on read. -/
theorem C7_witness :
    getUserData true [("+91998", staleRecordW)] ⟨24300, 77⟩ "+91998" =
      (some { staleRecordW with imagesProcessed := 0, resetDate := ⟨24301, 0⟩ },
       saveUser [("+91998", staleRecordW)]
         { staleRecordW with imagesProcessed := 0, resetDate := ⟨24301, 0⟩ }) ∧
    SimpleDate.ble ⟨24301, 0⟩ ⟨24300, 77⟩ = false :=
  C7_period_reset_on_read _ ⟨24300, 77⟩ "+91998" staleRecordW (by decide) (by decide)

/-! ### Concrete fixtures used by witnesses and counterexamples -/

/-- Fully configured environment. -/
def cfgW : Config :=
  { twilioNumber := some "+14155238886"
    hasRemoveBgKey := true
    hasCloudinary := true
    hasRazorpayKey := true
    railwayDomain := none }

/-- Environment with the background-removal capability unconfigured. -/
def cfgNoKeyW : Config := { cfgW with hasRemoveBgKey := false }

/-- All-success oracles: fetch, transform (a proper PNG with a PNG
content-type), upload and all sends succeed. -/
def oW : Oracles :=
  { dbOk := true
    fetchRes := .ok [7, 7]
    rbRes := .ok { contentType := some "image/png", body := pngMagicBytes }
    uploadRes := .ok "https://res.cloudinary.com/out.png"
    sendOk := fun _ => true }

/-- Oracles where the transform service call throws. -/
def oFailW : Oracles := { oW with rbRes := .error "Request failed with status code 500" }

/-- A media webhook request from `+911234`. -/
def reqMediaW : WebhookReq :=
  { From := some "whatsapp:+911234"
    To := some "whatsapp:+14155238886"
    Body := none
    NumMedia := some "1"
    MediaUrl0 := some "https://api.twilio.com/m0" }

/-- A FREE record with no quota used and a future reset date. -/
def freshRecordW : UserRecord :=
  { phoneNumber := "+911234"
    tier := .free
    imagesProcessed := 0
    subscriptionId := none
    resetDate := ⟨24301, 0⟩
    createdAt := ⟨24300, 0⟩ }

/-- The same record with the FREE quota fully consumed. -/
def atLimitRecordW : UserRecord := { freshRecordW with imagesProcessed := 3 }

/-- The instant the fixture events arrive (before the records' reset date). -/
def nowW : SimpleDate := ⟨24300, 50⟩

/-- **C8**: a media event whose loaded record already sits at (or past) its
tier limit — FREE → 3, PREMIUM → 100 — gets exactly the limit-reached
reply and stops: the pipeline trace is empty (no run) and the store is
returned exactly as it was before the event (no mutation; the load itself
cannot have created or reset a record whose counter is positive). -/
theorem C8_limit_reached_no_run_no_mutation (cfg : Config) (o : Oracles)
    (now : SimpleDate) (nowMs : Nat) (store : Store) (req : WebhookReq)
    (rawFrom p : String) (u : UserRecord)
    (hdb : o.dbOk = true)
    (hkey : cfg.hasRemoveBgKey = true)
    (hFrom : req.From = some rawFrom)
    (hRep : replaceFirst rawFrom "whatsapp:" = p)
    (hp : (p == "") = false)
    (hMedia : 0 < parseIntOr0 req.NumMedia)
    (hload : (getUserData true store now p).1 = some u)
    (hquota : limitFor u.tier ≤ u.imagesProcessed) :
    webhookRun cfg o now nowMs store req =
      mkRes store
        [(mkText p ("⚠️ Limit reached (" ++ toString (limitFor u.tier) ++ "). Reply UPGRADE"),
          o.sendOk 0)] [] := by
  rw [webhookRun_media cfg o now nowMs store req rawFrom p u hdb hFrom hRep hp hMedia hload]
  have hpos : 0 < u.imagesProcessed := by
    have h3 : 3 ≤ limitFor u.tier := by cases u.tier <;> simp [limitFor]
    omega
  have hstore := getUserData_store_unchanged store now p u hload hpos
  unfold handleMedia
  rw [hkey]
  simp only [Bool.not_true, Bool.false_eq_true, if_false, tierLimit_eq]
  rw [if_pos hquota, hstore]

/-- Witness for C8: the at-limit FREE record gets the limit reply, no
pipeline call, and an unchanged store. -/
theorem C8_witness :
    webhookRun cfgW oW nowW 42 [("+911234", atLimitRecordW)] reqMediaW =
      mkRes [("+911234", atLimitRecordW)]
        [(mkText "+911234" "⚠️ Limit reached (3). Reply UPGRADE", true)] [] :=
  C8_limit_reached_no_run_no_mutation cfgW oW nowW 42 [("+911234", atLimitRecordW)]
    reqMediaW "whatsapp:+911234" "+911234" atLimitRecordW
    rfl rfl rfl (by decide) (by decide) (by decide) (by decide) (by decide)

/-- **C6 counterexample**: an unconfigured background-removal capability
does NOT leave the record store unmutated — `getUserData` runs before the
configuration check, so a first-contact media event still creates and
persists a fresh usage record even though the event then stops with the
not-configured reply. -/
theorem C6_counterexample :
    (webhookRun cfgNoKeyW oW nowW 42 [] reqMediaW).store =
        [("+911234", newFreeUser "+911234" nowW)] ∧
    (webhookRun cfgNoKeyW oW nowW 42 [] reqMediaW).store ≠ ([] : Store) ∧
    (webhookRun cfgNoKeyW oW nowW 42 [] reqMediaW).entries.map Prod.fst =
        [mkText "+911234" "❌ Not configured"] ∧
    (webhookRun cfgNoKeyW oW nowW 42 [] reqMediaW).trace = [] := by
  refine ⟨by decide, by decide, by decide, by decide⟩

/-- **C6 amended**: with the background-removal capability unconfigured, a
media event is answered with the not-configured reply and stops — no
pipeline call and no quota consumption — but the store is whatever the
preceding `getUserData` left (it may have created the record on first
contact, or period-reset it); only that load mutates the store. -/
theorem C6_amended_not_configured (cfg : Config) (o : Oracles)
    (now : SimpleDate) (nowMs : Nat) (store : Store) (req : WebhookReq)
    (rawFrom p : String) (u : UserRecord)
    (hdb : o.dbOk = true)
    (hkey : cfg.hasRemoveBgKey = false)
    (hFrom : req.From = some rawFrom)
    (hRep : replaceFirst rawFrom "whatsapp:" = p)
    (hp : (p == "") = false)
    (hMedia : 0 < parseIntOr0 req.NumMedia)
    (hload : (getUserData true store now p).1 = some u) :
    webhookRun cfg o now nowMs store req =
      mkRes (getUserData true store now p).2
        [(mkText p "❌ Not configured", o.sendOk 0)] [] := by
  rw [webhookRun_media cfg o now nowMs store req rawFrom p u hdb hFrom hRep hp hMedia hload]
  unfold handleMedia
  rw [hkey]
  simp only [Bool.not_false, if_true]

/-- Witness for C6 amended: a first-contact media event with the capability
unconfigured — the reply is the not-configured text and the store holds
exactly the record the load created. -/
theorem C6_witness :
    webhookRun cfgNoKeyW oW nowW 42 [] reqMediaW =
      mkRes (getUserData true [] nowW "+911234").2
        [(mkText "+911234" "❌ Not configured", true)] [] :=
  C6_amended_not_configured cfgNoKeyW oW nowW 42 [] reqMediaW
    "whatsapp:+911234" "+911234" (newFreeUser "+911234" nowW)
    rfl rfl rfl rfl (by decide) (by decide) (by decide)

/-- **C1 counterexample**: a media event that passed the quota check but
whose pipeline fails does NOT consume a quota unit — the handler increments
`imagesProcessed` only after a successful upload, so on the failing run the
reason-bearing failure reply is sent but the counter stays at `0`, not the
claimed `0 + 1`. -/
theorem C1_counterexample :
    (webhookRun cfgW oFailW nowW 42 [("+911234", freshRecordW)] reqMediaW).entries.map Prod.fst =
        [mkText "+911234" "⏳ Processing...",
         mkText "+911234" (procErrBody "Request failed with status code 500")] ∧
    findUser (webhookRun cfgW oFailW nowW 42 [("+911234", freshRecordW)] reqMediaW).store
        "+911234" = some freshRecordW ∧
    freshRecordW.imagesProcessed = 0 ∧
    (0 : Nat) ≠ 1 := by
  refine ⟨by decide, by decide, by decide, by decide⟩

/-- **C1 amended**: for a media event that passed the quota check, the
consumed-quota accounting follows the pipeline outcome: on any stage
failure (fetch, transform or persist) the dispatcher emits the
reason-bearing failure reply and the record is NOT mutated — the quota
unit is only consumed (counter incremented by exactly 1 and saved) after
the whole pipeline succeeds, because the increment sits after the upload
in the try block. -/
theorem C1_amended_quota_only_on_success (cfg : Config) (o : Oracles)
    (now : SimpleDate) (nowMs : Nat) (store : Store) (req : WebhookReq)
    (rawFrom p : String) (u : UserRecord)
    (hdb : o.dbOk = true)
    (hkey : cfg.hasRemoveBgKey = true)
    (hFrom : req.From = some rawFrom)
    (hRep : replaceFirst rawFrom "whatsapp:" = p)
    (hp : (p == "") = false)
    (hMedia : 0 < parseIntOr0 req.NumMedia)
    (hload : (getUserData true store now p).1 = some u)
    (hquota : u.imagesProcessed < limitFor u.tier) :
    webhookRun cfg o now nowMs store req =
      (match removeBackground true req.MediaUrl0 o.fetchRes o.rbRes with
       | (.error e, tr) =>
           mkRes (getUserData true store now p).2
             [(mkText p "⏳ Processing...", o.sendOk 0),
              (mkText p (procErrBody (rbErrorMessage nowMs e)), o.sendOk 1)] tr
       | (.ok image, tr) =>
           match uploadToCloudinary cfg.hasCloudinary o.uploadRes image p nowMs with
           | (.error msg, tr2) =>
               mkRes (getUserData true store now p).2
                 [(mkText p "⏳ Processing...", o.sendOk 0),
                  (mkText p (procErrBody msg), o.sendOk 1)] (tr ++ tr2)
           | (.ok url, tr2) =>
               mkRes (saveUser (getUserData true store now p).2
                        { u with imagesProcessed := u.imagesProcessed + 1 })
                 [(mkText p "⏳ Processing...", o.sendOk 0),
                  (mkDocument p url
                    ("✅ Done! " ++ toString (limitFor u.tier - (u.imagesProcessed + 1)) ++
                      " left"), o.sendOk 1)]
                 (tr ++ tr2)) := by
  rw [webhookRun_media cfg o now nowMs store req rawFrom p u hdb hFrom hRep hp hMedia hload]
  unfold handleMedia
  rw [hkey]
  simp only [Bool.not_true, Bool.false_eq_true, if_false, tierLimit_eq]
  rw [if_neg (Nat.not_le.mpr hquota)]

/-- Witness for C1 amended at an all-success pipeline: the counter moves
from 0 to exactly 1 and the success document reply reports 2 remaining. -/
theorem C1_witness :
    webhookRun cfgW oW nowW 42 [("+911234", freshRecordW)] reqMediaW =
      mkRes (saveUser [("+911234", freshRecordW)]
               { freshRecordW with imagesProcessed := 1 })
        [(mkText "+911234" "⏳ Processing...", true),
         (mkDocument "+911234" "https://res.cloudinary.com/out.png" "✅ Done! 2 left", true)]
        [ExtCall.fetch (some "https://api.twilio.com/m0"), ExtCall.transform,
         ExtCall.upload "bg_911234_42"] :=
  C1_amended_quota_only_on_success cfgW oW nowW 42 [("+911234", freshRecordW)]
    reqMediaW "whatsapp:+911234" "+911234" freshRecordW
    rfl rfl rfl (by decide) (by decide) (by decide) (by decide) (by decide)

/-- A webhook request with every field absent. -/
def reqEmptyW : WebhookReq :=
  { From := none, To := none, Body := none, NumMedia := none, MediaUrl0 := none }

/-- Every media-branch exit acknowledges 200/OK and sends one or two
replies. -/
theorem handleMedia_shape (cfg : Config) (o : Oracles) (nowMs : Nat)
    (store1 : Store) (u : UserRecord) (req : WebhookReq) (p : String) :
    (handleMedia cfg o nowMs store1 u req p).status = 200 ∧
    (handleMedia cfg o nowMs store1 u req p).httpBody = "OK" ∧
    1 ≤ (handleMedia cfg o nowMs store1 u req p).entries.length ∧
    (handleMedia cfg o nowMs store1 u req p).entries.length ≤ 2 := by
  unfold handleMedia
  repeat' split
  all_goals try simp only []
  all_goals try split
  all_goals simp [mkRes]

/-- Every text-branch exit acknowledges 200/OK and sends exactly one
reply. -/
theorem handleText_shape (cfg : Config) (o : Oracles) (now : SimpleDate)
    (store1 : Store) (u : UserRecord) (p : String) (msgOpt : Option String) :
    (handleText cfg o now store1 u p msgOpt).status = 200 ∧
    (handleText cfg o now store1 u p msgOpt).httpBody = "OK" ∧
    (handleText cfg o now store1 u p msgOpt).entries.length = 1 := by
  unfold handleText
  repeat' split
  all_goals try simp only []
  all_goals try split
  all_goals try split
  all_goals simp [mkRes]

/-- **C4 counterexample**: the dispatcher does not emit exactly one reply
descriptor per inbound event — a media event that passes the quota check
produces TWO send attempts (the interim `⏳ Processing...` acknowledgement
plus the terminal reply), and an event with no sender field produces ZERO
while still being acknowledged with HTTP 200. -/
theorem C4_counterexample :
    (webhookRun cfgW oW nowW 42 [("+911234", freshRecordW)] reqMediaW).entries.length = 2 ∧
    (2 : Nat) ≠ 1 ∧
    (webhookRun cfgW oW nowW 42 [] reqEmptyW).entries = [] ∧
    (webhookRun cfgW oW nowW 42 [] reqEmptyW).status = 200 := by
  refine ⟨by decide, by decide, by decide, by decide⟩

/-- **C4 amended**: every inbound webhook event is acknowledged with
HTTP 200 and body `OK` whatever the internal outcome; an event bearing a
truthy sender identity gets at least one and at most two reply attempts
(two exactly when a media event reaches the processing stage: the interim
acknowledgement plus the terminal reply), while an event without a truthy
sender is acknowledged without any reply. -/
theorem C4_amended_ack_and_reply_bounds (cfg : Config) (o : Oracles)
    (now : SimpleDate) (nowMs : Nat) (store : Store) (req : WebhookReq) :
    (webhookRun cfg o now nowMs store req).status = 200 ∧
    (webhookRun cfg o now nowMs store req).httpBody = "OK" ∧
    (webhookRun cfg o now nowMs store req).entries.length ≤ 2 ∧
    ((webhookRun cfg o now nowMs store req).entries ≠ [] ↔
      truthy (req.From.map (fun s => replaceFirst s "whatsapp:")) = true) := by
  unfold webhookRun
  cases hF : req.From with
  | none => simp [mkRes, truthy]
  | some rawFrom =>
      simp only [Option.map_some']
      by_cases hp : (replaceFirst rawFrom "whatsapp:" == "") = true
      · have hpe : replaceFirst rawFrom "whatsapp:" = "" := by simpa using hp
        simp [hpe, mkRes, truthy]
      · have hpf : (replaceFirst rawFrom "whatsapp:" == "") = false :=
          Bool.eq_false_iff.mpr hp
        have htr : truthy (some (replaceFirst rawFrom "whatsapp:")) = true := by
          simp [truthy, bne, hpf]
        simp only [hpf, Bool.false_eq_true, if_false]
        cases hload : (getUserData o.dbOk store now (replaceFirst rawFrom "whatsapp:")).1 with
        | none =>
            simp [mkRes, htr]
        | some u =>
            by_cases hm : 0 < parseIntOr0 req.NumMedia
            · simp only [hm, if_true]
              obtain ⟨s1, s2, s3, s4⟩ := handleMedia_shape cfg o nowMs
                (getUserData o.dbOk store now (replaceFirst rawFrom "whatsapp:")).2 u req
                (replaceFirst rawFrom "whatsapp:")
              refine ⟨s1, s2, s4, ?_⟩
              rw [htr]
              simp only [iff_true]
              intro hnil
              rw [hnil] at s3
              simp at s3
            · simp only [hm, if_false]
              obtain ⟨s1, s2, s3⟩ := handleText_shape cfg o now
                (getUserData o.dbOk store now (replaceFirst rawFrom "whatsapp:")).2 u
                (replaceFirst rawFrom "whatsapp:") (req.Body.map (fun s => s.toLower.trim))
              refine ⟨s1, s2, by omega, ?_⟩
              rw [htr]
              simp only [iff_true]
              intro hnil
              rw [hnil] at s3
              simp at s3

/-- The media branch never reads a delivery outcome: with any two delivery
oracles it produces the same status, body, store, attempted descriptors
and pipeline trace. -/
theorem handleMedia_sendOk_irrel (cfg : Config) (o : Oracles) (s1 s2 : Nat → Bool)
    (nowMs : Nat) (store1 : Store) (u : UserRecord) (req : WebhookReq) (p : String) :
    (handleMedia cfg { o with sendOk := s1 } nowMs store1 u req p).status =
      (handleMedia cfg { o with sendOk := s2 } nowMs store1 u req p).status ∧
    (handleMedia cfg { o with sendOk := s1 } nowMs store1 u req p).httpBody =
      (handleMedia cfg { o with sendOk := s2 } nowMs store1 u req p).httpBody ∧
    (handleMedia cfg { o with sendOk := s1 } nowMs store1 u req p).store =
      (handleMedia cfg { o with sendOk := s2 } nowMs store1 u req p).store ∧
    (handleMedia cfg { o with sendOk := s1 } nowMs store1 u req p).entries.map Prod.fst =
      (handleMedia cfg { o with sendOk := s2 } nowMs store1 u req p).entries.map Prod.fst ∧
    (handleMedia cfg { o with sendOk := s1 } nowMs store1 u req p).trace =
      (handleMedia cfg { o with sendOk := s2 } nowMs store1 u req p).trace := by
  unfold handleMedia
  simp only []
  repeat' split
  all_goals simp [mkRes]

/-- The text branch never reads a delivery outcome either. -/
theorem handleText_sendOk_irrel (cfg : Config) (o : Oracles) (s1 s2 : Nat → Bool)
    (now : SimpleDate) (store1 : Store) (u : UserRecord) (p : String)
    (msgOpt : Option String) :
    (handleText cfg { o with sendOk := s1 } now store1 u p msgOpt).status =
      (handleText cfg { o with sendOk := s2 } now store1 u p msgOpt).status ∧
    (handleText cfg { o with sendOk := s1 } now store1 u p msgOpt).httpBody =
      (handleText cfg { o with sendOk := s2 } now store1 u p msgOpt).httpBody ∧
    (handleText cfg { o with sendOk := s1 } now store1 u p msgOpt).store =
      (handleText cfg { o with sendOk := s2 } now store1 u p msgOpt).store ∧
    (handleText cfg { o with sendOk := s1 } now store1 u p msgOpt).entries.map Prod.fst =
      (handleText cfg { o with sendOk := s2 } now store1 u p msgOpt).entries.map Prod.fst ∧
    (handleText cfg { o with sendOk := s1 } now store1 u p msgOpt).trace =
      (handleText cfg { o with sendOk := s2 } now store1 u p msgOpt).trace := by
  unfold handleText
  simp only []
  repeat' split
  all_goals simp [mkRes]

/-- **C10**: delivery failures of the external send capability are
swallowed inside the send helpers (`sendMessage` / `sendDocument` catch
and log), so they never influence the run: for ANY two delivery oracles
the webhook run has the same HTTP status (200) and body, the same final
store (already-persisted state — including a quota unit consumed just
before a failed final reply — is neither rolled back nor compensated),
the same attempted reply descriptors, and the same pipeline trace; only
the per-attempt delivered flags differ. -/
theorem C10_send_failures_swallowed (cfg : Config) (o : Oracles) (s1 s2 : Nat → Bool)
    (now : SimpleDate) (nowMs : Nat) (store : Store) (req : WebhookReq) :
    (webhookRun cfg { o with sendOk := s1 } now nowMs store req).status =
      (webhookRun cfg { o with sendOk := s2 } now nowMs store req).status ∧
    (webhookRun cfg { o with sendOk := s1 } now nowMs store req).httpBody =
      (webhookRun cfg { o with sendOk := s2 } now nowMs store req).httpBody ∧
    (webhookRun cfg { o with sendOk := s1 } now nowMs store req).store =
      (webhookRun cfg { o with sendOk := s2 } now nowMs store req).store ∧
    (webhookRun cfg { o with sendOk := s1 } now nowMs store req).entries.map Prod.fst =
      (webhookRun cfg { o with sendOk := s2 } now nowMs store req).entries.map Prod.fst ∧
    (webhookRun cfg { o with sendOk := s1 } now nowMs store req).trace =
      (webhookRun cfg { o with sendOk := s2 } now nowMs store req).trace := by
  unfold webhookRun
  cases req.From with
  | none => simp [mkRes]
  | some rawFrom =>
      simp only [Option.map_some']
      by_cases hp : (replaceFirst rawFrom "whatsapp:" == "") = true
      · simp [hp, mkRes]
      · have hpf : (replaceFirst rawFrom "whatsapp:" == "") = false :=
          Bool.eq_false_iff.mpr hp
        simp only [hpf, Bool.false_eq_true, if_false]
        cases hload : (getUserData o.dbOk store now (replaceFirst rawFrom "whatsapp:")).1 with
        | none => simp [mkRes]
        | some u =>
            by_cases hm : 0 < parseIntOr0 req.NumMedia
            · simp only [hm, if_true]
              exact handleMedia_sendOk_irrel cfg o s1 s2 nowMs _ u req _
            · simp only [hm, if_false]
              exact handleText_sendOk_irrel cfg o s1 s2 now _ u _ _

end BgRemover
